import Mathlib

/-!
Shallow embedding of `gemini_tts.py` (class `GeminiTTS`) and of the
text-validation step of the web front-end (`web_server.py`), together with
theorems settling the specification claims about the audio-request
orchestration component.

Modelling conventions:
* Python byte strings are `List Nat` (each element one byte value).
* Python `Optional` fields and values that may be `None` are `Option`.
* Python dicts used as speaker-to-voice maps are insertion-ordered
  association lists `List (String × String)` (Python dicts preserve
  insertion order, which the code relies on when building speaker configs).
* Raised exceptions are the `TTSError` sum type; a function that can raise
  returns `Except TTSError α`.
* The remote API is an oracle `GenerateContentRequest → Response` passed as
  a parameter; a function whose result is independent of the oracle never
  issues the call.
* The filesystem is a map `String → Option (List Nat)` from filename to
  file bytes.
-/

namespace GeminiTTS

/-- The fixed voice catalog, `GeminiTTS.VOICES` in `gemini_tts.py`. -/
def VOICES : List String :=
  ["Zephyr", "Puck", "Charon", "Kore", "Fenrir", "Leda", "Orus", "Aoede",
   "Callirrhoe", "Autonoe", "Enceladus", "Iapetus", "Umbriel", "Algieba",
   "Despina", "Erinome", "Algenib", "Rasalgethi", "Laomedeia", "Achernar",
   "Alnilam", "Schedar", "Gacrux", "Pulcherrima", "Achird",
   "Zubenelgenubi", "Vindemiatrix", "Sadachbia", "Sadaltager", "Sulafat"]

/-- The distinct failures the embedded code can raise.  Each constructor
corresponds to one distinct Python exception site:
* `invalidVoice v`  : `ValueError("Voice '<v>' ... not supported ...")`
  (both TTS methods);
* `tooManySpeakers` : `ValueError("Maximum 2 speakers supported")`;
* `noAudioData`     : `RuntimeError("Failed to generate audio: No audio
  data in response")` — raised by one combined check covering missing
  candidates, content, parts and inline data;
* `emptyAudioData`  : `RuntimeError("Failed to generate audio: Empty audio
  data")`;
* `missingApiKey`   : `ValueError("API key must be provided ...")` in
  `__init__`;
* `indexError`      : an unhandled Python `IndexError` (list index out of
  range), not part of the code's own error taxonomy;
* `emptyText`       : the spec's `EmptyText` failure.  No site in
  `gemini_tts.py` raises it; the constructor exists so that claims about
  it are statable. -/
inductive TTSError where
  | invalidVoice (voice : String)
  | tooManySpeakers
  | noAudioData
  | emptyAudioData
  | missingApiKey
  | indexError
  | emptyText
  deriving Repr, DecidableEq

/-- `types.PrebuiltVoiceConfig(voice_name=...)`. -/
structure PrebuiltVoiceConfig where
  voice_name : String
  deriving Repr, DecidableEq

/-- `types.VoiceConfig(prebuilt_voice_config=...)`. -/
structure VoiceConfig where
  prebuilt_voice_config : PrebuiltVoiceConfig
  deriving Repr, DecidableEq

/-- `types.SpeakerVoiceConfig(speaker=..., voice_config=...)`. -/
structure SpeakerVoiceConfig where
  speaker : String
  voice_config : VoiceConfig
  deriving Repr, DecidableEq

/-- The speech configuration of an outgoing request: either a single
prebuilt voice (`types.SpeechConfig(voice_config=...)`) or a list of named
speaker-voice configurations
(`types.SpeechConfig(multi_speaker_voice_config=...)`). -/
inductive SpeechCfg where
  | single (vc : VoiceConfig)
  | multi (speaker_voice_configs : List SpeakerVoiceConfig)
  deriving Repr, DecidableEq

/-- The outgoing `generate_content` request as shaped by the two TTS
methods: model identifier, input text, and the speech configuration
(`response_modalities=["AUDIO"]` is constant and omitted). -/
structure GenerateContentRequest where
  model : String
  contents : String
  speech : SpeechCfg
  deriving Repr, DecidableEq

/-- `part.inline_data`: its `data` field may itself be `None`. -/
structure InlineData where
  data : Option (List Nat)
  deriving Repr, DecidableEq

/-- A part of a candidate's content; `inline_data` may be absent. -/
structure Part where
  inline_data : Option InlineData
  deriving Repr, DecidableEq

/-- A candidate's content; its `parts` list may be absent (`None`). -/
structure Content where
  parts : Option (List Part)
  deriving Repr, DecidableEq

/-- A response candidate; its `content` may be absent (`None`). -/
structure Candidate where
  content : Option Content
  deriving Repr, DecidableEq

/-- The nested API response; `candidates` may be absent (`None`). -/
structure Response where
  candidates : Option (List Candidate)
  deriving Repr, DecidableEq

/-- The response-unwrapping step shared verbatim by `single_speaker_tts`
(lines 104–117) and `multi_speaker_tts` (lines 176–189):

    if (not response.candidates or
            not response.candidates[0].content or
            not response.candidates[0].content.parts or
            not response.candidates[0].content.parts[0].inline_data):
        raise RuntimeError("Failed to generate audio: No audio data in response")
    audio_data = response.candidates[0].content.parts[0].inline_data.data
    if not audio_data:
        raise RuntimeError("Failed to generate audio: Empty audio data")

Python truthiness: a missing (`None`) or empty list is falsy, a missing
object is falsy, and a present but zero-length byte string is falsy. -/
def extract_audio (response : Response) : Except TTSError (List Nat) :=
  match response.candidates with
  | none => .error .noAudioData
  | some [] => .error .noAudioData
  | some (c0 :: _) =>
    match c0.content with
    | none => .error .noAudioData
    | some content =>
      match content.parts with
      | none => .error .noAudioData
      | some [] => .error .noAudioData
      | some (p0 :: _) =>
        match p0.inline_data with
        | none => .error .noAudioData
        | some idata =>
          match idata.data with
          | none => .error .emptyAudioData
          | some bytes =>
            if bytes.isEmpty then .error .emptyAudioData
            else .ok bytes

/-- The validation and request-shaping phase of `single_speaker_tts`
(lines 81–102): reject a voice not in `VOICES`, otherwise build the
single-voice request.  There is no check on `text`. -/
def single_speaker_build (text voice_name model : String) :
    Except TTSError GenerateContentRequest :=
  if voice_name ∉ VOICES then
    .error (.invalidVoice voice_name)
  else
    .ok { model := model, contents := text,
          speech := .single ⟨⟨voice_name⟩⟩ }

/-- The validation and request-shaping phase of `multi_speaker_tts`
(lines 135–174): first iterate over the speaker map and reject the first
voice not in `VOICES`, then reject a map with more than 2 entries, then
build one `SpeakerVoiceConfig` per entry in insertion order.  There is no
check on `text`. -/
def multi_speaker_build (text : String)
    (speakers : List (String × String)) (model : String) :
    Except TTSError GenerateContentRequest :=
  match speakers.find? (fun sv => decide (sv.2 ∉ VOICES)) with
  | some sv => .error (.invalidVoice sv.2)
  | none =>
    if speakers.length > 2 then
      .error .tooManySpeakers
    else
      .ok { model := model, contents := text,
            speech := .multi (speakers.map fun sv => ⟨sv.1, ⟨⟨sv.2⟩⟩⟩) }

/-- Little-endian 2-byte encoding of a (small) natural number. -/
def u16le (n : Nat) : List Nat :=
  [n % 256, n / 256 % 256]

/-- Little-endian 4-byte encoding of a (small) natural number. -/
def u32le (n : Nat) : List Nat :=
  [n % 256, n / 256 % 256, n / 65536 % 256, n / 16777216 % 256]

/-- The bytes of the file produced by `save_wave_file` (lines 59–63),
which delegates to Python's `wave` module opened in `"wb"` mode:
a 44-byte RIFF/WAVE header — `"RIFF"`, riff chunk size `36 + len(data)`,
`"WAVE"`, `"fmt "`, fmt chunk size 16, audio format 1 (PCM), channel
count, frame rate, byte rate, block align, bits per sample
(`sample_width * 8`), `"data"`, data chunk size `len(data)` — followed by
the PCM bytes verbatim (`writeframes` performs no transformation and the
header is patched on close with the exact number of bytes written). -/
def waveFileBytes (pcm_data : List Nat)
    (channels rate sample_width : Nat) : List Nat :=
  [82, 73, 70, 70] ++ u32le (36 + pcm_data.length) ++
  [87, 65, 86, 69] ++
  [102, 109, 116, 32] ++ u32le 16 ++ u16le 1 ++
  u16le channels ++ u32le rate ++
  u32le (rate * channels * sample_width) ++
  u16le (channels * sample_width) ++ u16le (sample_width * 8) ++
  [100, 97, 116, 97] ++ u32le pcm_data.length ++ pcm_data

/-- Read the (channels, rate, sample_width) triple back from a WAV file's
44-byte header, the way a standard reader does: the little-endian channel
count at byte offset 22, the little-endian frame rate at offset 24, and
the little-endian bits-per-sample at offset 34 divided by 8.  Returns
`none` when the file is shorter than the 44-byte header. -/
def readWaveHeader (bs : List Nat) : Option (Nat × Nat × Nat) :=
  match bs with
  | _r0 :: _r1 :: _r2 :: _r3 :: _s0 :: _s1 :: _s2 :: _s3 ::
    _w0 :: _w1 :: _w2 :: _w3 ::
    _f0 :: _f1 :: _f2 :: _f3 :: _fs0 :: _fs1 :: _fs2 :: _fs3 ::
    _af0 :: _af1 :: ch0 :: ch1 :: ra0 :: ra1 :: ra2 :: ra3 ::
    _br0 :: _br1 :: _br2 :: _br3 :: _ba0 :: _ba1 :: bi0 :: bi1 ::
    _d0 :: _d1 :: _d2 :: _d3 :: _dl0 :: _dl1 :: _dl2 :: _dl3 :: _rest =>
      some (ch0 + 256 * ch1,
            ra0 + 256 * ra1 + 65536 * ra2 + 16777216 * ra3,
            (bi0 + 256 * bi1) / 8)
  | _ => none

/-- The data section of a WAV file: everything after the 44-byte header. -/
def readWaveData (bs : List Nat) : List Nat :=
  bs.drop 44

/-- The filesystem: a map from filename to the bytes of the file stored
there (`none` when no such file exists). -/
def FS : Type := String → Option (List Nat)

/-- `save_wave_file` (lines 46–64) as a filesystem transformer:
`wave.open(filename, "wb")` truncates/creates the file, so the previous
contents at `filename` are discarded and replaced by the WAV bytes;
no other file is touched and no backup is made. -/
def save_wave_file (fs : FS) (filename : String) (pcm_data : List Nat)
    (channels rate sample_width : Nat) : FS :=
  fun name =>
    if name = filename then
      some (waveFileBytes pcm_data channels rate sample_width)
    else fs name

/-- The complete `single_speaker_tts` (lines 66–118): validate and build
the request, issue it against the API oracle `api`, unwrap the response,
persist the audio, and return the output path and new filesystem. -/
def single_speaker_tts (text voice_name output_file model : String)
    (api : GenerateContentRequest → Response) (fs : FS) :
    Except TTSError (String × FS) := do
  let req ← single_speaker_build text voice_name model
  let audio_data ← extract_audio (api req)
  let fs := save_wave_file fs output_file audio_data 1 24000 2
  .ok (output_file, fs)

/-- The complete `multi_speaker_tts` (lines 120–190): validate and build
the request, issue it against the API oracle `api`, unwrap the response,
persist the audio, and return the output path and new filesystem. -/
def multi_speaker_tts (text : String) (speakers : List (String × String))
    (output_file model : String)
    (api : GenerateContentRequest → Response) (fs : FS) :
    Except TTSError (String × FS) := do
  let req ← multi_speaker_build text speakers model
  let audio_data ← extract_audio (api req)
  let fs := save_wave_file fs output_file audio_data 1 24000 2
  .ok (output_file, fs)

/-- The single-speaker prompt template of `generate_content`
(lines 224–227). -/
def singlePrompt (topic : String) : String :=
  "Generate a short, engaging explanation (around 100 words) about " ++
  topic ++ "."

/-- The multi-speaker dialogue prompt template of `generate_content`
(lines 210–222), instantiated with the two speaker names `n0` and `n1`. -/
def dialoguePrompt (topic n0 n1 : String) : String :=
  "Create a dialogue conversation about " ++ topic ++ ". " ++
  "Use ONLY this exact format with no narrative text:\n\n" ++
  n0 ++ ": Hello, let\x27s discuss " ++ topic ++ ".\n" ++
  n1 ++ ": Great idea! What\x27s your perspective?\n" ++
  n0 ++ ": Well, I think...\n" ++
  n1 ++ ": That\x27s interesting...\n\n" ++
  "Write 4-6 exchanges between " ++ n0 ++ " and " ++ n1 ++ ". " ++
  "Each line must start with the speaker name and colon. " ++
  "NO story text, NO descriptions, ONLY dialogue lines."

/-- The prompt-building step of `generate_content` (lines 206–227).
`if speakers:` is falsy for `None` and for an empty dict, selecting the
single-speaker template; otherwise `speaker_names = list(speakers.keys())`
and the f-string indexes `speaker_names[0]` and `speaker_names[1]` with no
guard, so a one-entry map hits an unhandled Python `IndexError` at
`speaker_names[1]` (modelled by `List.get?` returning `none`). -/
def generate_content_prompt (topic : String)
    (speakers : Option (List (String × String))) :
    Except TTSError String :=
  match speakers with
  | none => .ok (singlePrompt topic)
  | some l =>
    if l.isEmpty then .ok (singlePrompt topic)
    else
      let speaker_names := l.map Prod.fst
      match speaker_names.get? 0, speaker_names.get? 1 with
      | some n0, some n1 => .ok (dialoguePrompt topic n0 n1)
      | _, _ => .error .indexError

/-- The process environment, restricted to the one variable the code reads
and writes: the value of `GOOGLE_API_KEY` (`none` when unset). -/
structure Env where
  google_api_key : Option String
  deriving Repr, DecidableEq

/-- Python truthiness of an optional string: `None` and the empty string
are falsy. -/
def strTruthy : Option String → Bool
  | none => false
  | some s => !s.isEmpty

/-- `GeminiTTS.__init__` (lines 28–44): when `api_key` is truthy it is
written into the process-wide `GOOGLE_API_KEY` environment variable;
otherwise, when `os.getenv('GOOGLE_API_KEY')` is falsy, a `ValueError` is
raised.  Returns the environment after the call. -/
def GeminiTTS_init (api_key : Option String) (env : Env) :
    Except TTSError Env :=
  if strTruthy api_key then
    .ok { google_api_key := api_key }
  else if !strTruthy env.google_api_key then
    .error .missingApiKey
  else
    .ok env

/-- Python's `str.strip()`: drop leading and trailing whitespace. -/
def pyStrip (s : String) : String :=
  String.mk
    (((s.toList.dropWhile Char.isWhitespace).reverse.dropWhile
        Char.isWhitespace).reverse)

/-- The input-validation step of the `POST /api/tts/single` handler in
`web_server.py` (lines 54–70): `api_key` and `text` are stripped, a falsy
(stripped-empty) `api_key` yields the error message `"API key is
required"`, a falsy `text` yields `"Text is required"`; `none` means
validation passed and the core `single_speaker_tts` is called. -/
def web_single_validate (api_key text : String) : Option String :=
  if (pyStrip api_key).isEmpty then some "API key is required"
  else if (pyStrip text).isEmpty then some "Text is required"
  else none

end GeminiTTS

deriving instance DecidableEq for Except

namespace GeminiTTS

/-- When every assigned voice is in `VOICES`, the voice-validation loop of
`multi_speaker_tts` finds nothing to reject, so the build reduces to the
size check followed by request construction. -/
theorem multi_speaker_build_valid (text model : String)
    (speakers : List (String × String))
    (hs : ∀ sv ∈ speakers, sv.2 ∈ VOICES) :
    multi_speaker_build text speakers model
      = if speakers.length > 2 then .error .tooManySpeakers
        else .ok { model := model, contents := text,
                   speech := .multi (speakers.map fun sv => ⟨sv.1, ⟨⟨sv.2⟩⟩⟩) } := by
  have hfind : speakers.find? (fun sv => decide (sv.2 ∉ VOICES)) = none := by
    refine List.find?_eq_none.mpr fun x hx => ?_
    simp [hs x hx]
  unfold multi_speaker_build
  rw [hfind]

/-- C1.  Counterexample: with the empty text and valid voices, both
`single_speaker_tts` and `multi_speaker_tts` pass validation and construct
the outgoing request — neither fails with `EmptyText` (or with anything
else), so the claim that empty/whitespace-only text fails with `EmptyText`
before the API call is false on the code. -/
theorem c1_counterexample :
    single_speaker_build "" "Kore" "gemini-2.5-flash-preview-tts"
      = .ok { model := "gemini-2.5-flash-preview-tts", contents := "",
              speech := .single ⟨⟨"Kore"⟩⟩ } ∧
    multi_speaker_build "" [("Jane", "Kore"), ("Joe", "Puck")]
        "gemini-2.5-flash-preview-tts"
      = .ok { model := "gemini-2.5-flash-preview-tts", contents := "",
              speech := .multi [⟨"Jane", ⟨⟨"Kore"⟩⟩⟩, ⟨"Joe", ⟨⟨"Puck"⟩⟩⟩] } :=
  ⟨rfl, rfl⟩

/-- C1 (amended).  `single_speaker_tts` and `multi_speaker_tts` perform no
emptiness check on the text: for every text, including empty or
whitespace-only, validation passes whenever the voices are valid and the
speaker count is at most 2, and the API request is built carrying that
text verbatim; never is `EmptyText` raised.  Empty-text rejection exists
only in the web front-end, which strips the text and answers
`"Text is required"` before calling the core. -/
theorem c1_no_empty_text_check (text voice model : String)
    (hv : voice ∈ VOICES) (speakers : List (String × String))
    (hs : ∀ sv ∈ speakers, sv.2 ∈ VOICES) (hlen : speakers.length ≤ 2) :
    single_speaker_build text voice model
      = .ok { model := model, contents := text,
              speech := .single ⟨⟨voice⟩⟩ } ∧
    multi_speaker_build text speakers model
      = .ok { model := model, contents := text,
              speech := .multi (speakers.map fun sv => ⟨sv.1, ⟨⟨sv.2⟩⟩⟩) } ∧
    ((pyStrip text).isEmpty = true →
      web_single_validate "some-key" text = some "Text is required") := by
  refine ⟨?_, ?_, ?_⟩
  · simp [single_speaker_build, hv]
  · rw [multi_speaker_build_valid text model speakers hs,
      if_neg (by omega)]
  · intro ht
    have hk : (pyStrip "some-key").isEmpty = false := by decide
    simp [web_single_validate, hk, ht]

/-- C1 (amended), witness at text `""`. -/
theorem c1_witness :
    single_speaker_build "" "Kore" "m"
      = .ok { model := "m", contents := "",
              speech := .single ⟨⟨"Kore"⟩⟩ } ∧
    web_single_validate "some-key" "" = some "Text is required" := by
  obtain ⟨h1, _, h3⟩ :=
    c1_no_empty_text_check "" "Kore" "m" (by decide)
      [("Jane", "Kore")] (by decide) (by decide)
  exact ⟨h1, h3 (by decide)⟩

/-- C2.  Counterexample: on the spec's own scenario
`{"A": "X", "B": "Y", "C": "Z"}` (3 entries), `multi_speaker_tts` raises
`InvalidVoice` for `"X"` — the voice loop runs before the size check and
`"X"` is not in `VOICES` — not `TooManySpeakers` as the claim states. -/
theorem c2_counterexample :
    multi_speaker_build "t" [("A", "X"), ("B", "Y"), ("C", "Z")]
        "gemini-2.5-flash-preview-tts"
      = .error (.invalidVoice "X") ∧
    multi_speaker_build "t" [("A", "X"), ("B", "Y"), ("C", "Z")]
        "gemini-2.5-flash-preview-tts"
      ≠ .error .tooManySpeakers := by
  exact ⟨rfl, by decide⟩

/-- C2 (amended).  `multi_speaker_tts` validates voices before the size
check: when every assigned voice is in `VOICES`, a mapping with more than
2 entries fails with `TooManySpeakers` — and the whole call fails that way
for every API oracle and filesystem, so no API call is issued — while a
mapping of size 1 or 2 passes validation.  A mapping containing an
invalid voice fails with `InvalidVoice` for its first invalid entry even
when it has more than 2 entries (see the counterexample). -/
theorem c2_validation_order (text model output_file : String)
    (speakers : List (String × String))
    (hs : ∀ sv ∈ speakers, sv.2 ∈ VOICES) :
    (speakers.length > 2 →
      multi_speaker_build text speakers model = .error .tooManySpeakers ∧
      ∀ api fs, multi_speaker_tts text speakers output_file model api fs
        = .error .tooManySpeakers) ∧
    (speakers.length ≤ 2 →
      (multi_speaker_build text speakers model).isOk = true) := by
  constructor
  · intro hlen
    have hbuild : multi_speaker_build text speakers model
        = .error .tooManySpeakers := by
      rw [multi_speaker_build_valid text model speakers hs, if_pos hlen]
    refine ⟨hbuild, fun api fs => ?_⟩
    unfold multi_speaker_tts
    rw [hbuild]
    rfl
  · intro hlen
    rw [multi_speaker_build_valid text model speakers hs,
      if_neg (by omega)]
    rfl

/-- C2 (amended), witness at a 3-entry all-valid mapping and at a 2-entry
mapping. -/
theorem c2_witness :
    multi_speaker_tts "t" [("A", "Kore"), ("B", "Puck"), ("C", "Leda")]
        "out.wav" "m" (fun _ => ⟨none⟩) (fun _ => none)
      = .error .tooManySpeakers ∧
    (multi_speaker_build "t" [("Jane", "Kore"), ("Joe", "Puck")] "m").isOk
      = true := by
  refine ⟨?_, ?_⟩
  · exact ((c2_validation_order "t" "m" "out.wav"
      [("A", "Kore"), ("B", "Puck"), ("C", "Leda")] (by decide)).1
        (by decide)).2 (fun _ => ⟨none⟩) (fun _ => none)
  · exact (c2_validation_order "t" "m" "out.wav"
      [("Jane", "Kore"), ("Joe", "Puck")] (by decide)).2 (by decide)

/-- C3.  Counterexample: a response with no candidates and a response
whose first candidate lacks content raise the *identical* error — the one
`RuntimeError("Failed to generate audio: No audio data in response")` —
so the code does not distinguish an `EmptyResponse` failure from a
`MalformedResponse` failure as the claim states. -/
theorem c3_counterexample :
    extract_audio ⟨some []⟩ = extract_audio ⟨some [⟨none⟩]⟩ ∧
    extract_audio ⟨some []⟩ = .error .noAudioData ∧
    extract_audio ⟨some [⟨none⟩]⟩ = .error .noAudioData :=
  ⟨rfl, rfl, rfl⟩

/-- C3 (amended).  The Response Unwrapper distinguishes only *two*
failure kinds, not four: one combined check raises `noAudioData`
(`"No audio data in response"`) for missing/empty candidates and for a
missing content, missing/empty parts list, or missing inline payload at
any nesting level, and a second check raises `emptyAudioData`
(`"Empty audio data"`) for a payload that is present but `None` or
zero-length; a well-formed response with a non-empty payload yields
exactly those bytes.  The unwrapper is total over these three outcomes,
and each single-level removal hits the stated error. -/
theorem c3_two_failure_kinds (r : Response) :
    (extract_audio r = .error .noAudioData ∨
     extract_audio r = .error .emptyAudioData ∨
     ∃ b, extract_audio r = .ok b ∧ b ≠ []) ∧
    extract_audio ⟨none⟩ = .error .noAudioData ∧
    extract_audio ⟨some [⟨some ⟨none⟩⟩]⟩ = .error .noAudioData ∧
    extract_audio ⟨some [⟨some ⟨some []⟩⟩]⟩ = .error .noAudioData ∧
    extract_audio ⟨some [⟨some ⟨some [⟨none⟩]⟩⟩]⟩ = .error .noAudioData ∧
    extract_audio ⟨some [⟨some ⟨some [⟨some ⟨none⟩⟩]⟩⟩]⟩
      = .error .emptyAudioData ∧
    extract_audio ⟨some [⟨some ⟨some [⟨some ⟨some []⟩⟩]⟩⟩]⟩
      = .error .emptyAudioData ∧
    extract_audio ⟨some [⟨some ⟨some [⟨some ⟨some [1, 2, 3]⟩⟩]⟩⟩]⟩
      = .ok [1, 2, 3] := by
  refine ⟨?_, rfl, rfl, rfl, rfl, rfl, rfl, rfl⟩
  obtain ⟨cs⟩ := r
  unfold extract_audio
  rcases cs with _ | ⟨_ | ⟨c0, cs⟩⟩
  · exact .inl rfl
  · exact .inl rfl
  obtain ⟨ct⟩ := c0
  rcases ct with _ | ⟨ct⟩
  · exact .inl rfl
  obtain ⟨ps⟩ := ct
  rcases ps with _ | ⟨_ | ⟨p0, ps⟩⟩
  · exact .inl rfl
  · exact .inl rfl
  obtain ⟨idata⟩ := p0
  rcases idata with _ | ⟨idata⟩
  · exact .inl rfl
  obtain ⟨bytes⟩ := idata
  rcases bytes with _ | ⟨bytes⟩
  · exact .inr (.inl rfl)
  rcases hb : bytes.isEmpty with _ | _
  · refine .inr (.inr ⟨bytes, ?_, ?_⟩)
    · simp [hb]
    · simpa using hb
  · refine .inr (.inl ?_)
    simp [hb]

/-- C4.  The extraction path is fixed: for every response whose first
candidate's content's first part carries an inline payload of non-empty
bytes `b`, `extract_audio` returns exactly `b` unchanged, whatever the
remaining candidates `cs` and remaining parts `ps` contain — no scanning
of other candidates or parts. -/
theorem c4_fixed_path (r : Response) (c0 : Candidate)
    (cs : List Candidate) (ct : Content) (p0 : Part) (ps : List Part)
    (b : List Nat)
    (hc : r.candidates = some (c0 :: cs)) (hct : c0.content = some ct)
    (hp : ct.parts = some (p0 :: ps)) (hd : p0.inline_data = some ⟨some b⟩)
    (hb : b ≠ []) :
    extract_audio r = .ok b := by
  simp only [extract_audio, hc, hct, hp, hd]
  simp [hb]

/-- C4, witness: a response carrying a second candidate and a second part
(whose payloads differ) still yields exactly the first part's bytes. -/
theorem c4_witness :
    extract_audio
      ⟨some [⟨some ⟨some [⟨some ⟨some [7, 8]⟩⟩, ⟨some ⟨some [9]⟩⟩]⟩⟩,
             ⟨some ⟨some [⟨some ⟨some [4]⟩⟩]⟩⟩]⟩
      = .ok [7, 8] :=
  c4_fixed_path _ _ _ _ _ _ _ rfl rfl rfl rfl (by decide)

/-- C5.  Voice validation is membership in the fixed `VOICES` catalog by
case-sensitive exact string match: every non-member voice makes
`single_speaker_tts` — and `multi_speaker_tts`, for any speaker it is
assigned to — fail with `InvalidVoice` carrying that voice, and every
member passes validation in both; `"Kore"` is a member while its
case-variants `"kore"` and `"KORE"` are not. -/
theorem c5_voice_validation (v text model speaker : String) :
    (v ∉ VOICES →
      single_speaker_build text v model = .error (.invalidVoice v) ∧
      multi_speaker_build text [(speaker, v)] model
        = .error (.invalidVoice v)) ∧
    (v ∈ VOICES →
      (single_speaker_build text v model).isOk = true ∧
      (multi_speaker_build text [(speaker, v)] model).isOk = true) ∧
    ("Kore" ∈ VOICES ∧ "kore" ∉ VOICES ∧ "KORE" ∉ VOICES) := by
  refine ⟨fun h => ⟨?_, ?_⟩, fun h => ⟨?_, ?_⟩, by decide, by decide, by decide⟩
  · simp [single_speaker_build, h]
  · simp [multi_speaker_build, List.find?, h]
  · unfold single_speaker_build
    rw [if_neg (by simp [h])]
    rfl
  · rw [multi_speaker_build_valid text model [(speaker, v)] (by simpa using h),
      if_neg (by simp)]
    rfl

/-- C5, witness at the non-member `"kore"` and the member `"Kore"`. -/
theorem c5_witness :
    single_speaker_build "hi" "kore" "m" = .error (.invalidVoice "kore") ∧
    multi_speaker_build "hi" [("Jane", "kore")] "m"
      = .error (.invalidVoice "kore") ∧
    (single_speaker_build "hi" "Kore" "m").isOk = true ∧
    (multi_speaker_build "hi" [("Jane", "Kore")] "m").isOk = true := by
  obtain ⟨h1, h2⟩ := (c5_voice_validation "kore" "hi" "m" "Jane").1 (by decide)
  obtain ⟨h3, h4⟩ := (c5_voice_validation "Kore" "hi" "m" "Jane").2.1 (by decide)
  exact ⟨h1, h2, h3, h4⟩

/-- C6.  Audio Persister round-trip: for every byte string `B`, the file
`save_wave_file` stores under the given filename is a RIFF/WAVE file of
`44 + |B|` bytes whose header reads back as exactly (channels = 1,
rate = 24000, sample_width = 2) and whose data section after the 44-byte
header is `B` byte-for-byte. -/
theorem c6_wave_roundtrip (B : List Nat) (fs : FS) (filename : String) :
    save_wave_file fs filename B 1 24000 2 filename
      = some (waveFileBytes B 1 24000 2) ∧
    readWaveHeader (waveFileBytes B 1 24000 2) = some (1, 24000, 2) ∧
    readWaveData (waveFileBytes B 1 24000 2) = B ∧
    (waveFileBytes B 1 24000 2).length = 44 + B.length := by
  refine ⟨?_, rfl, ?_, ?_⟩
  · simp [save_wave_file]
  · simp [readWaveData, waveFileBytes, u16le, u32le]
  · simp [waveFileBytes, u16le, u32le]
    omega

/-- C7.  Overwrite semantics of the Audio Persister: writing the same
bytes to the same filename twice yields a filesystem identical to a
single write; the write replaces whatever was previously stored at
`filename` (no append — the resulting content is exactly the WAV bytes of
the new data, for *any* previous content) and leaves every other filename
untouched, so no backup of the previous file is kept anywhere. -/
theorem c7_overwrite_idempotent (fs : FS) (filename : String)
    (B : List Nat) (channels rate width : Nat) :
    save_wave_file (save_wave_file fs filename B channels rate width)
        filename B channels rate width
      = save_wave_file fs filename B channels rate width ∧
    (∀ fs2 : FS, save_wave_file fs2 filename B channels rate width filename
      = some (waveFileBytes B channels rate width)) ∧
    (∀ other, other ≠ filename →
      save_wave_file fs filename B channels rate width other = fs other) := by
  refine ⟨funext fun name => ?_, fun fs2 => ?_, fun other hother => ?_⟩
  · by_cases h : name = filename <;> simp [save_wave_file, h]
  · simp [save_wave_file]
  · simp [save_wave_file, hother]

/-- C7, witness: a double write on a filesystem already holding an old
file at the target name equals a single write, and the old content is
gone. -/
theorem c7_witness :
    save_wave_file
        (save_wave_file (fun _ => some [9]) "out.wav" [1, 2] 1 24000 2)
        "out.wav" [1, 2] 1 24000 2
      = save_wave_file (fun _ => some [9]) "out.wav" [1, 2] 1 24000 2 ∧
    save_wave_file (fun _ => some [9]) "out.wav" [1, 2] 1 24000 2 "out.wav"
      = some (waveFileBytes [1, 2] 1 24000 2) := by
  obtain ⟨h1, h2, _⟩ :=
    c7_overwrite_idempotent (fun _ => some [9]) "out.wav" [1, 2] 1 24000 2
  exact ⟨h1, h2 (fun _ => some [9])⟩

/-- C8.  For the voice assignment `{"Jane": "Kore", "Joe": "Puck"}`,
`multi_speaker_tts` builds exactly 2 speaker-voice configuration entries
in the outgoing request, in insertion order: Jane (voice Kore) first,
then Joe (voice Puck). -/
theorem c8_insertion_order :
    multi_speaker_build "Jane: Hi! Joe: Hello!"
        [("Jane", "Kore"), ("Joe", "Puck")] "gemini-2.5-flash-preview-tts"
      = .ok { model := "gemini-2.5-flash-preview-tts",
              contents := "Jane: Hi! Joe: Hello!",
              speech := .multi [⟨"Jane", ⟨⟨"Kore"⟩⟩⟩, ⟨"Joe", ⟨⟨"Puck"⟩⟩⟩] } ∧
    [SpeakerVoiceConfig.mk "Jane" ⟨⟨"Kore"⟩⟩,
     SpeakerVoiceConfig.mk "Joe" ⟨⟨"Puck"⟩⟩].length = 2 :=
  ⟨rfl, rfl⟩

/-- C9.  For every speakers mapping with exactly 1 entry,
`generate_content` hits an unhandled Python `IndexError`
(`speaker_names[1]` on a one-element list) while building the
multi-speaker prompt — it neither succeeds nor fails with an error of the
code's own taxonomy. -/
theorem c9_single_entry_index_error (topic name voice : String) :
    generate_content_prompt topic (some [(name, voice)])
      = .error .indexError ∧
    generate_content_prompt topic none = .ok (singlePrompt topic) ∧
    generate_content_prompt topic (some [("Jane", "Kore"), ("Joe", "Puck")])
      = .ok (dialoguePrompt topic "Jane" "Joe") :=
  ⟨rfl, rfl, rfl⟩

/-- C10.  `GeminiTTS.__init__` with an explicit (non-empty) `api_key`
writes that key into the process-wide `GOOGLE_API_KEY` environment
variable, whatever value that variable had before; the mutation persists
after the call, so every later construction in the same process that
omits the key succeeds against the mutated environment — whereas with the
variable unset such a construction raises the missing-key `ValueError`. -/
theorem c10_env_mutation (k : String) (hk : k.isEmpty = false) (env : Env) :
    GeminiTTS_init (some k) env = .ok ⟨some k⟩ ∧
    GeminiTTS_init none ⟨some k⟩ = .ok ⟨some k⟩ ∧
    GeminiTTS_init none ⟨none⟩ = .error .missingApiKey := by
  refine ⟨?_, ?_, rfl⟩
  · simp [GeminiTTS_init, strTruthy, hk]
  · simp [GeminiTTS_init, strTruthy, hk]

/-- C10, witness at a concrete key over an environment where
`GOOGLE_API_KEY` previously held another value. -/
theorem c10_witness :
    GeminiTTS_init (some "new-key") ⟨some "old-key"⟩ = .ok ⟨some "new-key"⟩ ∧
    GeminiTTS_init none ⟨some "new-key"⟩ = .ok ⟨some "new-key"⟩ := by
  obtain ⟨h1, h2, _⟩ := c10_env_mutation "new-key" (by decide) ⟨some "old-key"⟩
  exact ⟨h1, h2⟩

end GeminiTTS
